import Mathlib

/-!
Verification development for the CRM recommendation platform.

Shallow embedding of the core pipeline code:
  * `core/recommendation/scorer.py` (scoring, ranking, diversification),
  * `core/recommendation/feature_computer.py` (silence window),
  * `core/recommendation/scenario_matcher.py` (scenario candidate producers),
  * `core/recommendation/engine.py` (orchestration),
  * `core/transform/customer_deduplicator.py` (Stage A deduplication),
  * `core/transform/transform_loaders.py` (master-profile build),
  * `core/audit/service.py` (audit lifecycle),
  * `core/ingestion/loaders.py` (raw-staging load),
  * `core/ingestion/validators.py` + `schemas.py` (customer batch validation).

Conventions of the embedding:
  * SQL tables are lists of records; SQL NULL is `Option.none`.
  * Python floats are modelled as exact rationals `ℚ` (every constant in the
    scoring code is a short decimal, and the concrete examples considered
    here are exact in IEEE double as well).
  * Calendar dates are integers (a day count); `today` is a parameter.
  * Python truthiness on optional strings (`if v:`) is `truthyStr`.
  * `ORDER BY RANDOM()` is modelled by an explicit ordering parameter
    (`shuffle`), the random draw of one execution.
  * Where SQL leaves tie order unspecified (ORDER BY on equal keys,
    DISTINCT), a stable first-occurrence order is chosen; no theorem below
    depends on the tie-break.
-/

namespace CrmReco

/-- Python truthiness of an optional string: `None` and `""` are falsy. -/
def truthyStr : Option String → Bool
  | none => false
  | some s => s ≠ ""

/-- Helper for `dedupKeepFirst`; `seen` holds the keys already emitted. -/
def dedupKeepFirstAux [DecidableEq α] (seen : List α) : List α → List α
  | [] => []
  | a :: rest =>
    if a ∈ seen then dedupKeepFirstAux seen rest
    else a :: dedupKeepFirstAux (a :: seen) rest

/-- Keep the first occurrence of each element (insertion order of dict keys). -/
def dedupKeepFirst [DecidableEq α] (l : List α) : List α :=
  dedupKeepFirstAux [] l

/-- The whitespace characters stripped by Python's `str.strip()` (space, tab,
newline, carriage return, vertical tab, form feed). -/
def isPySpace (c : Char) : Bool :=
  c = ' ' || c = '\t' || c = '\n' || c = '\r' || c.toNat = 11 || c.toNat = 12

/-- Python's `str.strip()` (also the pydantic `str_strip_whitespace` step). -/
def pyStrip (s : String) : String :=
  ⟨((s.data.dropWhile isPySpace).reverse.dropWhile isPySpace).reverse⟩

/-- ASCII lower-casing of one character (`str.lower()` on the ASCII inputs
the validators deal with). -/
def lowerChar (c : Char) : Char :=
  if 'A' ≤ c ∧ c ≤ 'Z' then Char.ofNat (c.toNat + 32) else c

/-- Python's `str.lower()`. -/
def pyLower (s : String) : String :=
  ⟨s.data.map lowerChar⟩

/-- Split a character list at every occurrence of the separator. -/
def splitCharList (sep : Char) : List Char → List (List Char)
  | [] => [[]]
  | x :: xs =>
    match splitCharList sep xs with
    | [] => [[]]
    | g :: gs => if x = sep then [] :: g :: gs else (x :: g) :: gs

/-! ### Canonical data model (the columns the embedded code reads) -/

/-- A row of the `product` table. -/
structure Product where
  product_key : String
  family : Option String
  popularity_score : Option ℚ
  is_premium : Bool
deriving DecidableEq, Repr

/-- A row of the `order_line` table. -/
structure OrderLine where
  customer_code : String
  product_key : String
  order_date : ℤ
  amount_ht : ℚ
deriving DecidableEq, Repr

/-- A row of the `contact_event` table. -/
structure ContactEvent where
  customer_code : String
  contact_date : ℤ
deriving DecidableEq, Repr

/-- The store as read by the recommendation components. -/
structure Db where
  products : List Product
  orders : List OrderLine
  contacts : List ContactEvent
deriving Repr

/-- `SELECT ... FROM product WHERE product_key = :pk` (first row). -/
def lookupProduct (db : Db) (pk : String) : Option Product :=
  db.products.find? (fun p => p.product_key = pk)

/-- The recommendation scenarios (`RecoScenario` in `scenario_matcher.py`). -/
inductive RecoScenario where
  | REBUY
  | CROSS_SELL
  | UPSELL
  | WINBACK
  | NURTURE
deriving DecidableEq, Repr

/-! ### `scorer.py` -/

/-- Score breakdown for a recommendation (`RecoScore` dataclass). -/
structure RecoScore where
  product_key : String
  scenario : RecoScenario
  base_score : ℚ
  affinity_score : ℚ
  popularity_score : ℚ
  profit_score : ℚ
  final_score : ℚ
deriving DecidableEq, Repr

/-- First query of `compute_affinity_score`: the customer's most frequently
purchased family (`GROUP BY p.family ORDER BY COUNT(*) DESC LIMIT 1`).
Outer `none` = no purchase rows; the inner option is the family value,
which may itself be NULL.  Ties are broken by first occurrence. -/
def topFamilyQuery (db : Db) (cust : String) : Option (Option String) :=
  let fams := (db.orders.filter (fun ol => ol.customer_code = cust)).filterMap
    (fun ol => (lookupProduct db ol.product_key).map (fun p => p.family))
  let cnt : Option String → ℕ := fun x => (fams.filter (· = x)).length
  match dedupKeepFirst fams with
  | [] => none
  | k :: ks => some (ks.foldl (fun best k' => if cnt best < cnt k' then k' else best) k)

/-- `RecommendationScorer.compute_affinity_score`. -/
def compute_affinity_score (db : Db) (cust pk : String) : ℚ :=
  let preferred_family := topFamilyQuery db cust
  match lookupProduct db pk with
  | none => 50
  | some product =>
    let score : ℚ := 50 +
      (match preferred_family with
       | some tf => if product.family = tf then 25
                    else if truthyStr product.family then 10 else 0
       | none => if truthyStr product.family then 10 else 0)
    min 100 score

/-- `RecommendationScorer.compute_popularity_score`
(`float(row[0]) * 100.0 if row[0] else 50.0`: NULL and 0 are falsy). -/
def compute_popularity_score (db : Db) (pk : String) : ℚ :=
  match lookupProduct db pk with
  | none => 50
  | some product =>
    match product.popularity_score with
    | none => 50
    | some p => if p = 0 then 50 else p * 100

/-- `RecommendationScorer.compute_profit_score` (popularity used as proxy). -/
def compute_profit_score (db : Db) (pk : String) : ℚ :=
  match lookupProduct db pk with
  | none => 50
  | some product =>
    match product.popularity_score with
    | none => 50
    | some p => if p = 0 then 50 else p * 100

/-- `RecommendationScorer.score_recommendation` with the weight table
`{affinity: 0.40, popularity: 0.30, profit: 0.20, base: 0.10}`. -/
def score_recommendation (db : Db) (cust pk : String) (scen : RecoScenario)
    (base_score : ℚ) : RecoScore :=
  let affinity := compute_affinity_score db cust pk
  let popularity := compute_popularity_score db pk
  let profit := compute_profit_score db pk
  { product_key := pk
    scenario := scen
    base_score := base_score
    affinity_score := affinity
    popularity_score := popularity
    profit_score := profit
    final_score := 0.40 * affinity + 0.30 * popularity + 0.20 * profit
      + 0.10 * base_score }

/-- Stable descending insertion of a score into a list already sorted by
`final_score` descending (equal keys keep their original relative order,
as Python's stable `sorted(..., reverse=True)` does). -/
def insertDesc (s : RecoScore) : List RecoScore → List RecoScore
  | [] => [s]
  | t :: ts => if t.final_score < s.final_score then s :: t :: ts
               else t :: insertDesc s ts

/-- Stable sort by `final_score` descending, modelling
`sorted(scores, key=lambda x: x.final_score, reverse=True)`. -/
def sortByFinalDesc : List RecoScore → List RecoScore
  | [] => []
  | s :: ss => insertDesc s (sortByFinalDesc ss)

/-- `RecommendationScorer.rank_recommendations`: sort descending, take top N. -/
def rank_recommendations (scores : List RecoScore) (max_recommendations : ℕ) :
    List RecoScore :=
  (sortByFinalDesc scores).take max_recommendations

/-- One iteration step of the loop in `diversify_recommendations`: the three
accepting branches (`if not selected` / `elif family not in used_families` /
`elif len(selected) < max_recommendations`).  `fam pk` is `families.get(pk)`
(the product's family, `none` when the product row is missing). -/
def diversifyStep (fam : String → Option String) (maxR : ℕ)
    (selected : List RecoScore) (used : List (Option String)) (s : RecoScore) :
    List RecoScore × List (Option String) :=
  let f := fam s.product_key
  if selected.isEmpty then
    (selected ++ [s], if truthyStr f then used ++ [f] else used)
  else if f ∉ used then
    (selected ++ [s], used ++ [f])
  else if selected.length < maxR then
    (selected ++ [s], used)
  else
    (selected, used)

/-- The loop of `diversify_recommendations`, including the
`if len(selected) >= max_recommendations: break` at the end of each pass. -/
def diversifyGo (fam : String → Option String) (maxR : ℕ) :
    List RecoScore → List RecoScore → List (Option String) → List RecoScore
  | [], selected, _ => selected
  | s :: rest, selected, used =>
    let step := diversifyStep fam maxR selected used s
    if maxR ≤ step.1.length then step.1
    else diversifyGo fam maxR rest step.1 step.2

/-- `RecommendationScorer.diversify_recommendations` (the exception branch is
unreachable in the pure model and is not represented). -/
def diversify_recommendations (fam : String → Option String)
    (ranked_scores : List RecoScore) (max_recommendations : ℕ) :
    List RecoScore :=
  if ranked_scores.isEmpty then []
  else diversifyGo fam max_recommendations ranked_scores [] []

/-! ### `feature_computer.py` -/

/-- `SELECT MAX(contact_date) FROM contact_event WHERE customer_code = :c`. -/
def maxContactDate (db : Db) (cust : String) : Option ℤ :=
  ((db.contacts.filter (fun c => c.customer_code = cust)).map
    (fun c => c.contact_date)).max?

/-- `FeatureComputer.get_silence_window`: `True` iff a last contact exists and
`today - last_contact < days`. -/
def get_silence_window (db : Db) (today : ℤ) (cust : String) (days : ℤ) : Bool :=
  match maxContactDate db cust with
  | none => false
  | some last_contact => today - last_contact < days

/-! ### `scenario_matcher.py`

Each matcher returns `none` rather than an empty list (`products if products
else None`).  `today` stands for `CURRENT_DATE` / `datetime.now().date()`. -/

/-- Order lines of a customer. -/
def customerLines (db : Db) (cust : String) : List OrderLine :=
  db.orders.filter (fun ol => ol.customer_code = cust)

/-- Stable descending insertion by an integer key. -/
def insertDescBy (key : α → ℤ) (a : α) : List α → List α
  | [] => [a]
  | b :: bs => if key b < key a then a :: b :: bs else b :: insertDescBy key a bs

/-- Stable sort, descending by an integer key. -/
def sortDescBy (key : α → ℤ) : List α → List α
  | [] => []
  | a :: as_ => insertDescBy key a (sortDescBy key as_)

/-- Stable descending insertion by a rational key. -/
def insertDescByQ (key : α → ℚ) (a : α) : List α → List α
  | [] => [a]
  | b :: bs => if key b < key a then a :: b :: bs else b :: insertDescByQ key a bs

/-- Stable sort, descending by a rational key. -/
def sortDescByQ (key : α → ℚ) : List α → List α
  | [] => []
  | a :: as_ => insertDescByQ key a (sortDescByQ key as_)

/-- `p.popularity_score >= q` in SQL (NULL compares to false). -/
def popAtLeast (p : Product) (q : ℚ) : Bool :=
  match p.popularity_score with
  | none => false
  | some pop => q ≤ pop

/-- `ScenarioMatcher.match_rebuy`: previously purchased products (order at
least 90 days old, popularity at least 0.5), most recent purchase first,
distinct, at most 3. -/
def match_rebuy (db : Db) (today : ℤ) (cust : String) : Option (List String) :=
  let lines := (customerLines db cust).filter (fun ol =>
    decide (ol.order_date ≤ today - 90) &&
    (match lookupProduct db ol.product_key with
     | none => false
     | some p => popAtLeast p (mkRat 1 2)))  -- 0.5
  let products :=
    (dedupKeepFirst ((sortDescBy (fun ol => ol.order_date) lines).map
      (fun ol => ol.product_key))).take 3
  if products.isEmpty then none else some products

/-- `ScenarioMatcher.match_cross_sell` (without the optional exclude set,
which the engine never passes): exclude the customer's first two distinct
purchased families, keep products of other non-NULL families with popularity
at least 0.4, by popularity descending, at most 3.  A NULL customer family is
rendered as the string `None` by the f-string building the SQL. -/
def match_cross_sell (db : Db) (cust : String) : Option (List String) :=
  let customer_families :=
    (dedupKeepFirst ((customerLines db cust).filterMap
      (fun ol => (lookupProduct db ol.product_key).map (fun p => p.family)))).take 2
  if customer_families.isEmpty then none
  else
    let excluded : List String :=
      customer_families.map (fun f => f.getD "None")
    let candidates := db.products.filter (fun p =>
      (match p.family with
       | none => false
       | some f => !(excluded.contains f)) && popAtLeast p (mkRat 2 5))  -- 0.4
    let products :=
      ((sortDescByQ (fun p => (p.popularity_score.getD 0 : ℚ)) candidates).map
        (fun p => p.product_key)).take 3
    if products.isEmpty then none else some products

/-- `ScenarioMatcher.match_upsell`: requires total spend of at least 500
(SQL SUM is NULL without rows, and 0.0 is falsy), then premium products with
popularity at least 0.6, by popularity descending, at most 3. -/
def match_upsell (db : Db) (cust : String) : Option (List String) :=
  let lines := customerLines db cust
  let total_spent : ℚ := (lines.map (fun ol => ol.amount_ht)).sum
  if lines.isEmpty ∨ total_spent = 0 ∨ total_spent < 500 then none
  else
    let candidates := db.products.filter (fun p =>
      p.is_premium && popAtLeast p (mkRat 3 5))  -- 0.6
    let products :=
      ((sortDescByQ (fun p => (p.popularity_score.getD 0 : ℚ)) candidates).map
        (fun p => p.product_key)).take 3
    if products.isEmpty then none else some products

/-- `ScenarioMatcher.match_winback`: requires inactivity of at least 365 days,
then products with popularity at least 0.7, by popularity descending, at
most 3. -/
def match_winback (db : Db) (today : ℤ) (cust : String) : Option (List String) :=
  match ((customerLines db cust).map (fun ol => ol.order_date)).max? with
  | none => none
  | some last_purchase =>
    if today - last_purchase < 365 then none
    else
      let candidates := db.products.filter (fun p => popAtLeast p (mkRat 7 10))  -- 0.7
      let products :=
        ((sortDescByQ (fun p => (p.popularity_score.getD 0 : ℚ)) candidates).map
          (fun p => p.product_key)).take 3
      if products.isEmpty then none else some products

/-- The product set NURTURE samples from: popularity at least 0.3 and
non-NULL family. -/
def nurtureCandidates (db : Db) : List Product :=
  db.products.filter (fun p => popAtLeast p (mkRat 3 10) && p.family.isSome)  -- 0.3

/-- `ScenarioMatcher.match_nurture`.  `if not count or count > 3: return None`
rejects both `count == 0` and `count > 3`.  `ORDER BY RANDOM() LIMIT 3` is the
first 3 rows of `shuffle` applied to the candidate rows, where `shuffle` is
the unseeded random ordering drawn by this execution (the query text contains
no seed and no reference to a run or customer). -/
def match_nurture (shuffle : List Product → List Product) (db : Db)
    (cust : String) : Option (List String) :=
  let count := (customerLines db cust).length
  if count = 0 ∨ count > 3 then none
  else
    let products := ((shuffle (nurtureCandidates db)).take 3).map
      (fun p => p.product_key)
    if products.isEmpty then none else some products

/-- `ScenarioMatcher.match_scenarios`: all five matchers in dict insertion
order, empty buckets dropped (`{k: v for k, v in results.items() if v}`). -/
def match_scenarios (shuffle : List Product → List Product) (db : Db)
    (today : ℤ) (cust : String) : List (RecoScenario × List String) :=
  ([(RecoScenario.REBUY, match_rebuy db today cust),
    (RecoScenario.CROSS_SELL, match_cross_sell db cust),
    (RecoScenario.UPSELL, match_upsell db cust),
    (RecoScenario.WINBACK, match_winback db today cust),
    (RecoScenario.NURTURE, match_nurture shuffle db cust)]).filterMap
    (fun kv => match kv.2 with
      | none => none
      | some ps => if ps.isEmpty then none else some (kv.1, ps))

/-! ### `engine.py` -/

/-- The `scenario_base_scores` table in
`RecommendationEngine.generate_recommendations` (the `.get(scenario, 70.0)`
default is unreachable: the enumeration is closed). -/
def scenarioBaseScore : RecoScenario → ℚ
  | RecoScenario.REBUY => 85
  | RecoScenario.CROSS_SELL => 75
  | RecoScenario.UPSELL => 80
  | RecoScenario.WINBACK => 70
  | RecoScenario.NURTURE => 65

/-- A persisted recommendation (`RecommendationItem`; the explanation text is
not modelled, no claim depends on it). -/
structure RecoItem where
  rank : ℕ
  product_key : String
  scenario : RecoScenario
  score : RecoScore
deriving DecidableEq, Repr

/-- `enumerate(diversified, start=1)`: ranks 1, 2, ... in list order. -/
def assignRanks (start : ℕ) : List RecoScore → List RecoItem
  | [] => []
  | s :: rest =>
    { rank := start, product_key := s.product_key, scenario := s.scenario,
      score := s } :: assignRanks (start + 1) rest

/-- The `families` map built inside `diversify_recommendations`
(`row[0] if row else None`). -/
def familyOf (db : Db) (pk : String) : Option String :=
  match lookupProduct db pk with
  | none => none
  | some p => p.family

/-- `RecommendationEngine.generate_recommendations`.  Returns the list of
`RecoItem`s the run persists (`_save_recommendations` writes exactly
`result.recommendations`) and the success flag.  The failure returns carry an
empty recommendation list and persist nothing. -/
def generate_recommendations (shuffle : List Product → List Product) (db : Db)
    (today : ℤ) (cust : String) (max_recommendations : ℕ)
    (enable_silence_check : Bool) : List RecoItem × Bool :=
  if enable_silence_check ∧ get_silence_window db today cust 30 then ([], false)
  else
    let scenarios_match := match_scenarios shuffle db today cust
    if scenarios_match.isEmpty then ([], false)
    else
      let all_scores := scenarios_match.flatMap (fun kv =>
        kv.2.map (fun pk =>
          score_recommendation db cust pk kv.1 (scenarioBaseScore kv.1)))
      if all_scores.isEmpty then ([], false)
      else
        let ranked := rank_recommendations all_scores max_recommendations
        let diversified :=
          diversify_recommendations (familyOf db) ranked max_recommendations
        (assignRanks 1 diversified, true)

/-! ### `customer_deduplicator.py` (transform Stage A) -/

/-- A raw customer row of the current ingestion batch, as fetched by
`deduplicate_batch` (`{'_id': row[0], **row[1]}`).  The two bookkeeping keys
set by `merge_customer_records` are absent (`none`) on raw rows. -/
structure RawCustomerRow where
  rowId : ℕ
  customer_code : Option String
  first_name : Option String
  last_name : Option String
  email : Option String
  phone : Option String
  customers_codes_merged : Option Bool
  duplicate_count : Option ℕ
deriving DecidableEq, Repr

/-- `CustomerDeduplicator.get_email_groups`: rows grouped by truthy email,
keys in first-occurrence order (Python dict insertion order). -/
def get_email_groups (rows : List RawCustomerRow) :
    List (String × List RawCustomerRow) :=
  (dedupKeepFirst (rows.filterMap (fun r =>
    if truthyStr r.email then r.email else none))).map
    (fun e => (e, rows.filter (fun r => r.email = some e)))

/-- `CustomerDeduplicator.get_phone_groups`: rows grouped by truthy phone.
(Computed by `deduplicate_batch` but never used there.) -/
def get_phone_groups (rows : List RawCustomerRow) :
    List (String × List RawCustomerRow) :=
  (dedupKeepFirst (rows.filterMap (fun r =>
    if truthyStr r.phone then r.phone else none))).map
    (fun p => (p, rows.filter (fun r => r.phone = some p)))

/-- `merged[field] = value` when `value` is truthy and `merged[field]` is not
(`elif value and not merged.get(field)`). -/
def mergeField (merged value : Option String) : Option String :=
  if truthyStr merged then merged
  else if truthyStr value then value else merged

/-- Fold one further duplicate row into the accumulating merged record
(the inner loop of `merge_customer_records`; `customer_code` is skipped and
collected separately). -/
def mergeOneRow (m : RawCustomerRow) (r : RawCustomerRow) : RawCustomerRow :=
  { m with
    rowId := if m.rowId ≠ 0 then m.rowId else r.rowId
    first_name := mergeField m.first_name r.first_name
    last_name := mergeField m.last_name r.last_name
    email := mergeField m.email r.email
    phone := mergeField m.phone r.phone }

/-- `CustomerDeduplicator.merge_customer_records`. -/
def merge_customer_records (duplicates : List RawCustomerRow) : RawCustomerRow :=
  match duplicates with
  | [] => { rowId := 0, customer_code := none, first_name := none,
            last_name := none, email := none, phone := none,
            customers_codes_merged := none, duplicate_count := none }
  | [single] => single
  | first :: rest =>
    let merged := rest.foldl mergeOneRow first
    let customer_codes := (first :: rest).map (fun r => r.customer_code)
    { merged with
      customer_code := some (String.intercalate ","
        (customer_codes.filterMap id |>.filter (fun c => c ≠ "")))
      customers_codes_merged := some (customer_codes.length > 1)
      duplicate_count := some duplicates.length }

/-- The first loop of `deduplicate_batch`, iterating the email groups in
order and carrying `(dedup_customers, duplicates_map, processed_ids)`. -/
def processEmailGroups
    (acc : List RawCustomerRow × List (ℕ × List ℕ) × List ℕ) :
    List (String × List RawCustomerRow) →
    List RawCustomerRow × List (ℕ × List ℕ) × List ℕ
  | [] => acc
  | (_, group) :: rest =>
    let (dedup, dmap, processed) := acc
    match group with
    | g0 :: g1 :: gs =>
      let merged := merge_customer_records (g0 :: g1 :: gs)
      processEmailGroups
        (dedup ++ [merged],
         dmap ++ [(g0.rowId, (g1 :: gs).map (fun r => r.rowId))],
         processed ++ (g0 :: g1 :: gs).map (fun r => r.rowId)) rest
    | [single] =>
      if single.rowId ∈ processed then processEmailGroups acc rest
      else processEmailGroups
        (dedup ++ [single], dmap, processed ++ [single.rowId]) rest
    | [] => processEmailGroups acc rest

/-- `CustomerDeduplicator.deduplicate_batch` on the fetched batch rows:
merge email groups of size above 1, pass through email singletons, then
append the rows not covered by any email group.  (The phone groups are
computed by the source but their result is discarded.) -/
def deduplicate_batch (rows : List RawCustomerRow) :
    List RawCustomerRow × List (ℕ × List ℕ) :=
  if rows.isEmpty then ([], [])
  else
    let _phone_groups := get_phone_groups rows
    let (fromEmail, dmap, processed) :=
      processEmailGroups ([], [], []) (get_email_groups rows)
    let leftovers := rows.filter (fun r => r.rowId ∉ processed)
    (fromEmail ++ leftovers, dmap)

/-! ### `transform_loaders.py` (`ClientMasterProfileLoader`, Stage E) -/

/-- `ClientMasterProfileLoader.compute_rfm_scores`: aggregates the customer's
order lines and then returns the placeholder scores
(`3 if row[i] else None`; the MAX date is truthy whenever a row exists, the
COUNT is positive, the SUM is falsy when it is 0.0). -/
def compute_rfm_scores (orders : List OrderLine) (cust : String) :
    Option ℤ × Option ℤ × Option ℤ :=
  let lines := orders.filter (fun ol => ol.customer_code = cust)
  match lines with
  | [] => (none, none, none)
  | _ :: _ =>
    let total_amount : ℚ := (lines.map (fun ol => ol.amount_ht)).sum
    (some 3, some 3, if total_amount = 0 then none else some 3)

/-- A persisted `client_master_profile` row (the columns written by
`build_profiles`). -/
structure MasterProfileRow where
  customer_code : String
  rfm_score : ℤ
  segment : String
deriving DecidableEq, Repr

/-- `ClientMasterProfileLoader.build_profiles`: one upsert per customer with
`rfm_score = (r or 0) + (f or 0) + (m or 0)` and the constant segment
`'STANDARD'`. -/
def build_profiles (customers : List String) (orders : List OrderLine) :
    List MasterProfileRow :=
  customers.map (fun cust =>
    let (recency, frequency, monetary) := compute_rfm_scores orders cust
    { customer_code := cust
      rfm_score := recency.getD 0 + frequency.getD 0 + monetary.getD 0
      segment := "STANDARD" })

/-! ### `audit/service.py` (`AuditService`) -/

/-- The approval lifecycle states. -/
inductive ApprovalStatus where
  | PENDING
  | APPROVED
  | REJECTED
  | FLAGGED
deriving DecidableEq, Repr

/-- A row of the audit-log table (the columns the service mutates). -/
structure AuditEntry where
  audit_id : String
  approval_status : ApprovalStatus
  approved_by : Option String
  approval_reason : Option String
  approved_at : Option ℤ
  flags : List String
deriving DecidableEq, Repr

/-- `query(...).filter(audit_id == id).first()`. -/
def findAudit (s : List AuditEntry) (audit_id : String) : Option AuditEntry :=
  s.find? (fun e => e.audit_id = audit_id)

/-- Update the first row matching the id. -/
def updateFirstAudit (audit_id : String) (f : AuditEntry → AuditEntry) :
    List AuditEntry → List AuditEntry
  | [] => []
  | e :: rest =>
    if e.audit_id = audit_id then f e :: rest
    else e :: updateFirstAudit audit_id f rest

/-- `AuditService.approve_recommendation`: returns `False` when the id is
absent; otherwise unconditionally sets APPROVED, the actor, the optional
reason and the approval time. -/
def approve_recommendation (s : List AuditEntry) (audit_id approved_by : String)
    (reason : Option String) (now : ℤ) : List AuditEntry × Bool :=
  match findAudit s audit_id with
  | none => (s, false)
  | some _ =>
    (updateFirstAudit audit_id (fun e =>
      { e with approval_status := ApprovalStatus.APPROVED
               approved_by := some approved_by
               approval_reason := reason
               approved_at := some now }) s, true)

/-- `AuditService.reject_recommendation`: as approve, with a mandatory
reason, setting REJECTED. -/
def reject_recommendation (s : List AuditEntry) (audit_id approved_by reason : String)
    (now : ℤ) : List AuditEntry × Bool :=
  match findAudit s audit_id with
  | none => (s, false)
  | some _ =>
    (updateFirstAudit audit_id (fun e =>
      { e with approval_status := ApprovalStatus.REJECTED
               approved_by := some approved_by
               approval_reason := some reason
               approved_at := some now }) s, true)

/-- `AuditService.flag_recommendation`: sets FLAGGED and appends the reason
to the flag list. -/
def flag_recommendation (s : List AuditEntry) (audit_id flag_reason : String) :
    List AuditEntry × Bool :=
  match findAudit s audit_id with
  | none => (s, false)
  | some _ =>
    (updateFirstAudit audit_id (fun e =>
      { e with approval_status := ApprovalStatus.FLAGGED
               flags := e.flags ++ [flag_reason] }) s, true)

/-! ### `ingestion/loaders.py` (`RawDataLoader`) -/

/-- A CSV row as a string-keyed map (association list). -/
abbrev CsvRow := List (String × String)

/-- The canonical serialization behind `calculate_row_hash`:
`json.dumps(row, sort_keys=True, default=str)` rendered as the sorted
key:value list.  The SHA-256 digest applied on top of it in the source is an
injective-in-practice function of this string; the idempotence theorem below
is proved for an arbitrary deterministic hash function, which covers it. -/
def sortedJsonDump (row : CsvRow) : String :=
  String.intercalate ","
    (((row.map (fun kv => kv.1 ++ ":" ++ kv.2)).mergeSort (· ≤ ·)))

/-- `calculate_row_hash` with the digest step abstracted (see
`sortedJsonDump`). -/
def calculate_row_hash (row : CsvRow) : String :=
  sortedJsonDump row

/-- A row of a `raw_*` staging table
(`(batch_id, row_hash, row_data)` with `UNIQUE(batch_id, row_hash)`). -/
structure RawStagingRecord where
  batch_id : String
  row_hash : String
  row_data : CsvRow
deriving Repr

/-- Does the staging table already hold the unique key `(batch_id, row_hash)`? -/
def hasKey (table : List RawStagingRecord) (b h : String) : Bool :=
  table.any (fun rec => rec.batch_id = b ∧ rec.row_hash = h)

/-- One `INSERT INTO raw_* (batch_id, row_hash, row_data) VALUES ...` under
the uniqueness constraint: a duplicate key raises, is caught, and leaves the
table unchanged. -/
def insertRawRecord (table : List RawStagingRecord) (b h : String) (d : CsvRow) :
    List RawStagingRecord :=
  if hasKey table b h then table
  else table ++ [{ batch_id := b, row_hash := h, row_data := d }]

/-- `RawDataLoader.load_raw_customers` (and its two siblings, which run the
same per-row loop): hash each row and insert it under the uniqueness
constraint.  `hash` is the row-content hash function
(`calculate_row_hash` in the source). -/
def load_raw_customers (hash : CsvRow → String) (table : List RawStagingRecord)
    (rows : List CsvRow) (batch_id : String) : List RawStagingRecord :=
  rows.foldl (fun t row => insertRawRecord t batch_id (hash row) row) table

/-! ### `ingestion/schemas.py` + `validators.py` (`CustomerValidator`) -/

/-- An input customer row (`none` = key absent or null). -/
structure CustRow where
  customer_code : Option String
  last_name : Option String
  first_name : Option String
  email : Option String
  phone : Option String
  address : Option String
  postal_code : Option String
  city : Option String
  country : Option String
deriving DecidableEq, Repr

/-- The regex `^[^@]+@[^@]+\.[^@]+$` of `CustomerSchema.validate_email`:
exactly one `@`, a non-empty local part, and a dot strictly inside the
domain part. -/
def emailOk (s : String) : Bool :=
  match splitCharList '@' s.data with
  | [l, d] => !l.isEmpty && (((d.drop 1).dropLast).contains '.')
  | _ => false

/-- The regex `^[a-zA-Z0-9\-]{2,20}$` of
`CustomerSchema.validate_postal_code`. -/
def postalOk (s : String) : Bool :=
  2 ≤ s.length && s.length ≤ 20 &&
    s.toList.all (fun c => c.isAlphanum || c = '-')

/-- `validate_email`: empty and missing become `none`; a non-empty value is
lower-cased and must match the regex (`none` result = `ValidationError`). -/
def validateEmailField (v : Option String) : Option (Option String) :=
  match v with
  | none => some none
  | some raw =>
    let raw := pyStrip raw
    if raw = "" then some none
    else
      let lowered := pyLower raw
      if emailOk lowered then some (some lowered) else none

/-- `validate_postal_code`: as the email field, without lower-casing. -/
def validatePostalField (v : Option String) : Option (Option String) :=
  match v with
  | none => some none
  | some raw =>
    let raw := pyStrip raw
    if raw = "" then some none
    else if postalOk raw then some (some raw) else none

/-- `CustomerSchema(**row).model_dump()`: pydantic strips whitespace on every
string field, `customer_code` must be present and non-blank, email and
postal code must validate when present.  `none` = `ValidationError`. -/
def validateCustomerRow (r : CustRow) : Option CustRow :=
  match r.customer_code with
  | none => none
  | some c0 =>
    if pyStrip c0 = "" then none
    else
      match validateEmailField r.email, validatePostalField r.postal_code with
      | some em, some pc =>
        some { customer_code := some (pyStrip c0)
               last_name := r.last_name.map pyStrip
               first_name := r.first_name.map pyStrip
               email := em
               phone := r.phone.map pyStrip
               address := r.address.map pyStrip
               postal_code := pc
               city := r.city.map pyStrip
               country := r.country.map pyStrip }
      | _, _ => none

/-- A validation error of the report (`IngestionError`, the fields the
claims use). -/
structure IngestionErrorRec where
  row_number : ℕ
  error_code : String
deriving DecidableEq, Repr

/-- `row.get('customer_code', '').strip()`: the key under which the
duplicate-detection set registers a row. -/
def dupKeyOf (r : CustRow) : String :=
  pyStrip (r.customer_code.getD "")

/-- The loop of `CustomerValidator.validate_batch`, carrying
`(seen_codes, valid_rows, errors, row_number)`.  The duplicate check and the
registration in `seen_codes` happen before schema validation. -/
def validateBatchGo (seen : List String) (valid : List CustRow)
    (errs : List IngestionErrorRec) (n : ℕ) :
    List CustRow → List String × List CustRow × List IngestionErrorRec × ℕ
  | [] => (seen, valid, errs, n)
  | r :: rest =>
    let code := dupKeyOf r
    if code ∈ seen then
      validateBatchGo seen valid
        (errs ++ [{ row_number := n, error_code := "DUPLICATE_CUSTOMER" }])
        (n + 1) rest
    else
      match validateCustomerRow r with
      | some v =>
        validateBatchGo (seen ++ [code]) (valid ++ [v]) errs (n + 1) rest
      | none =>
        validateBatchGo (seen ++ [code]) valid
          (errs ++ [{ row_number := n, error_code := "VALIDATION_ERROR" }])
          (n + 1) rest

/-- `CustomerValidator.validate_batch` (row numbering starts at 2: the CSV
header is row 1). -/
def validate_customer_batch (rows : List CustRow) :
    List CustRow × List IngestionErrorRec :=
  ((validateBatchGo [] [] [] 2 rows).2.1, (validateBatchGo [] [] [] 2 rows).2.2.1)

/-! ### Specification-side definitions used for comparison -/

/-- The affinity bonus as the specification states it: +25 when the product's
family equals the customer's top family, +10 when the product has a family
but it differs (including when the customer has no top family). -/
def claimedAffinityBonus (preferred : Option (Option String))
    (fam : Option String) : ℚ :=
  match preferred with
  | some tf => if fam = tf then 25 else if truthyStr fam then 10 else 0
  | none => if truthyStr fam then 10 else 0

/-! ### Concrete inputs for witnesses and counterexamples -/

/-- E5 family table: P1 and P2 are Red, P3 is White. -/
def e5fam : String → Option String := fun pk =>
  if pk = "P1" ∨ pk = "P2" then some "Red"
  else if pk = "P3" then some "White" else none

/-- The E5 ranked candidates (scenario, product, final_score):
(REBUY, P1, 90), (REBUY, P2, 88), (CROSS_SELL, P3, 70). -/
def e5ranked : List RecoScore :=
  [{ product_key := "P1", scenario := RecoScenario.REBUY, base_score := 85,
     affinity_score := 0, popularity_score := 0, profit_score := 0,
     final_score := 90 },
   { product_key := "P2", scenario := RecoScenario.REBUY, base_score := 85,
     affinity_score := 0, popularity_score := 0, profit_score := 0,
     final_score := 88 },
   { product_key := "P3", scenario := RecoScenario.CROSS_SELL, base_score := 75,
     affinity_score := 0, popularity_score := 0, profit_score := 0,
     final_score := 70 }]

/-- E3: product WINE001, family Rouge, popularity 0.8 (= 4/5). -/
def wineProduct : Product :=
  { product_key := "WINE001", family := some "Rouge",
    popularity_score := some (mkRat 4 5), is_premium := false }

/-- E3: the store, with C001's single order of WINE001 120 days ago. -/
def e3db : Db :=
  { products := [wineProduct]
    orders := [{ customer_code := "C001", product_key := "WINE001",
                 order_date := -120, amount_ht := 50 }]
    contacts := [] }

/-- Two raw customer rows sharing a phone and holding no email. -/
def phoneRow1 : RawCustomerRow :=
  { rowId := 1, customer_code := some "C001", first_name := none,
    last_name := none, email := none, phone := some "+33612345678",
    customers_codes_merged := none, duplicate_count := none }

/-- Second raw customer row with the same phone as `phoneRow1`. -/
def phoneRow2 : RawCustomerRow :=
  { rowId := 2, customer_code := some "C002", first_name := none,
    last_name := none, email := none, phone := some "+33612345678",
    customers_codes_merged := none, duplicate_count := none }

/-- A store with a contact 29 days ago (today = 0): inside a 30-day window. -/
def silenceDb : Db :=
  { products := [], orders := [],
    contacts := [{ customer_code := "C001", contact_date := -29 }] }

/-- A store with a contact exactly 30 days ago: outside a 30-day window. -/
def silenceDbAtN : Db :=
  { products := [], orders := [],
    contacts := [{ customer_code := "C001", contact_date := -30 }] }

/-- A PENDING audit entry. -/
def pendingAudit : AuditEntry :=
  { audit_id := "a1", approval_status := ApprovalStatus.PENDING,
    approved_by := none, approval_reason := none, approved_at := none,
    flags := [] }

/-- A REJECTED audit entry. -/
def rejectedAudit : AuditEntry :=
  { audit_id := "a2", approval_status := ApprovalStatus.REJECTED,
    approved_by := some "admin", approval_reason := some "low score",
    approved_at := some 0, flags := [] }

/-- Two products qualifying for NURTURE (popularity 0.5 and 0.6, with
families). -/
def nurtureP1 : Product :=
  { product_key := "P1", family := some "A",
    popularity_score := some (mkRat 1 2), is_premium := false }

/-- Second NURTURE-qualifying product. -/
def nurtureP2 : Product :=
  { product_key := "P2", family := some "B",
    popularity_score := some (mkRat 3 5), is_premium := false }

/-- A store where C001 has one order and C000 has none. -/
def nurtureDb : Db :=
  { products := [nurtureP1, nurtureP2]
    orders := [{ customer_code := "C001", product_key := "P1",
                 order_date := -10, amount_ht := 50 }]
    contacts := [] }

/-- A customer row whose code is C1 and whose email fails validation. -/
def c10badRow : CustRow :=
  { customer_code := some "C1", last_name := none, first_name := none,
    email := some "notanemail", phone := none, address := none,
    postal_code := none, city := none, country := none }

/-- A schema-valid later row carrying the same code C1. -/
def c10goodRow : CustRow :=
  { customer_code := some "C1", last_name := none, first_name := none,
    email := some "a@b.c", phone := none, address := none,
    postal_code := none, city := none, country := none }

/-! ## Helper lemmas -/

theorem diversifyStep_fst (fam : String → Option String) (maxR : ℕ)
    (selected : List RecoScore) (used : List (Option String)) (s : RecoScore)
    (h : selected.length < maxR) :
    (diversifyStep fam maxR selected used s).1 = selected ++ [s] := by
  unfold diversifyStep
  by_cases h1 : selected.isEmpty
  · simp [h1]
  · by_cases h2 : fam s.product_key ∈ used
    · simp [h1, h2, h]
    · simp [h1, h2]

theorem diversifyGo_eq_append_take (fam : String → Option String) (maxR : ℕ)
    (pending : List RecoScore) :
    ∀ (selected : List RecoScore) (used : List (Option String)),
      selected.length < maxR →
      diversifyGo fam maxR pending selected used =
        selected ++ pending.take (maxR - selected.length) := by
  induction pending with
  | nil => intro selected used _; simp [diversifyGo]
  | cons s rest ih =>
    intro selected used h
    rw [diversifyGo]
    simp only [diversifyStep_fst fam maxR selected used s h]
    by_cases hK : maxR ≤ (selected ++ [s]).length
    · have hKeq : maxR = selected.length + 1 := by
        simp only [List.length_append, List.length_cons, List.length_nil] at hK
        omega
      rw [if_pos (by simpa using hK)]
      have : maxR - selected.length = 1 := by omega
      simp [this]
    · rw [if_neg (by simpa using hK)]
      have hlt : (selected ++ [s]).length < maxR := by
        simp only [List.length_append, List.length_cons, List.length_nil] at hK ⊢
        omega
      rw [ih (selected ++ [s]) _ hlt]
      have h1 : maxR - (selected ++ [s]).length = maxR - selected.length - 1 := by
        simp; omega
      have h2 : maxR - selected.length = (maxR - selected.length - 1) + 1 := by
        omega
      rw [h1, h2, List.take_succ_cons, List.append_assoc]
      rfl

theorem diversify_eq_take (fam : String → Option String)
    (ranked : List RecoScore) (maxR : ℕ) (h : 1 ≤ maxR) :
    diversify_recommendations fam ranked maxR = ranked.take maxR := by
  unfold diversify_recommendations
  by_cases he : ranked.isEmpty
  · rw [if_pos he]
    rw [List.isEmpty_iff] at he
    simp [he]
  · rw [if_neg he]
    have := diversifyGo_eq_append_take fam maxR ranked [] []
      (by simpa using Nat.lt_of_lt_of_le Nat.zero_lt_one h)
    simpa using this

/-! ## Claim C2 -/

/-- C2 counterexample: on the spec's own E5 input — ranked candidates
(REBUY, P1, Red, 90), (REBUY, P2, Red, 88), (CROSS_SELL, P3, White, 70)
with K = 3 — `diversify_recommendations` returns the slate [P1, P2, P3] in
rank order, not the claimed [P1, P3, P2]: the same-family candidate P2 is
accepted immediately by the in-line fill branch, not demoted behind P3. -/
theorem C2_diversification_counterexample :
    (diversify_recommendations e5fam e5ranked 3).map
        (fun s => s.product_key) = ["P1", "P2", "P3"] ∧
    (diversify_recommendations e5fam e5ranked 3).map
        (fun s => s.product_key) ≠ ["P1", "P3", "P2"] := by
  constructor
  · decide
  · decide

/-- C2 (amended): the diversification loop is a single greedy pass, but its
same-family fallback acts in-line during the pass — a same-family candidate
is accepted at once whenever the slate still has fewer than K items — so for
every ranked list and every K ≥ 1 the output slate is exactly the first K
ranked candidates, in rank order. -/
theorem C2_diversification_amended (fam : String → Option String)
    (ranked_scores : List RecoScore) (max_recommendations : ℕ)
    (h : 1 ≤ max_recommendations) :
    diversify_recommendations fam ranked_scores max_recommendations =
      ranked_scores.take max_recommendations :=
  diversify_eq_take fam ranked_scores max_recommendations h

/-- C2 witness: the amended statement applied to the E5 input. -/
theorem C2_diversification_witness :
    1 ≤ 3 ∧
    diversify_recommendations e5fam e5ranked 3 = e5ranked.take 3 :=
  ⟨by norm_num, C2_diversification_amended e5fam e5ranked 3 (by norm_num)⟩

/-! ## Claim C4 -/

/-- C4: for every candidate — any (customer, product, scenario) whose product
row exists and carries a non-zero popularity `p`, which every scenario
matcher guarantees (all candidate filters require popularity ≥ 0.3) — the
scorer produces base = the scenario base score, affinity = 50 plus the
claimed family bonus (+25 on a top-family match, +10 for a differing present
family), popularity = profit = 100·p, and
final = 0.40·affinity + 0.30·popularity + 0.20·profit + 0.10·base. -/
theorem C4_scoring_formula (db : Db) (cust pk : String) (scen : RecoScenario)
    (product : Product) (hfind : lookupProduct db pk = some product)
    (p : ℚ) (hpop : product.popularity_score = some p) (hp : p ≠ 0) :
    score_recommendation db cust pk scen (scenarioBaseScore scen) =
      { product_key := pk
        scenario := scen
        base_score := scenarioBaseScore scen
        affinity_score :=
          50 + claimedAffinityBonus (topFamilyQuery db cust) product.family
        popularity_score := p * 100
        profit_score := p * 100
        final_score :=
          0.40 * (50 + claimedAffinityBonus (topFamilyQuery db cust)
            product.family) + 0.30 * (p * 100) + 0.20 * (p * 100)
          + 0.10 * scenarioBaseScore scen } := by
  have haff : compute_affinity_score db cust pk =
      50 + claimedAffinityBonus (topFamilyQuery db cust) product.family := by
    unfold compute_affinity_score claimedAffinityBonus
    rw [hfind]
    rcases htf : topFamilyQuery db cust with _ | tf <;>
      · simp only
        split_ifs <;> norm_num [min_def]
  have hpopty : compute_popularity_score db pk = p * 100 := by
    simp [compute_popularity_score, hfind, hpop, hp]
  have hprof : compute_profit_score db pk = p * 100 := by
    simp [compute_profit_score, hfind, hpop, hp]
  unfold score_recommendation
  rw [haff, hpopty, hprof]

/-- C4 witness: the spec's E3 instance — C001's single purchase is WINE001
(family Rouge, popularity 0.8) — under REBUY: base 85, affinity 75,
popularity 80, profit 80, final 78.5. -/
theorem C4_scoring_witness :
    lookupProduct e3db "WINE001" = some wineProduct ∧
    wineProduct.popularity_score = some (mkRat 4 5) ∧
    (mkRat 4 5 : ℚ) = 0.8 ∧ (mkRat 4 5 : ℚ) ≠ 0 ∧
    score_recommendation e3db "C001" "WINE001" RecoScenario.REBUY
        (scenarioBaseScore RecoScenario.REBUY) =
      { product_key := "WINE001", scenario := RecoScenario.REBUY,
        base_score := 85, affinity_score := 75, popularity_score := 80,
        profit_score := 80, final_score := 78.5 } := by
  have hq : (mkRat 4 5 : ℚ) = 0.8 := by
    rw [Rat.mkRat_eq_divInt, Rat.divInt_eq_div]; norm_num
  refine ⟨by decide, rfl, hq, by rw [hq]; norm_num, ?_⟩
  have h := C4_scoring_formula e3db "C001" "WINE001" RecoScenario.REBUY
    wineProduct (by decide) (mkRat 4 5) rfl (by rw [hq]; norm_num)
  rw [h, hq]
  have htop : topFamilyQuery e3db "C001" = some (some "Rouge") := by decide
  rw [htop]
  norm_num [claimedAffinityBonus, wineProduct, scenarioBaseScore, truthyStr]

/-! ## Claim C1 -/

/-- C1: evaluation of the code at the failing input.  `build_profiles`
persists the placeholder segment `STANDARD` for every customer — here a
customer with no orders, whom the claim requires to get `PROSPECT` — and the
placeholder RFM scores (3/3/3, hence `rfm_score` 9, or 0 without orders)
instead of quartile-bucketed scores; no VIP/AT_RISK/INACTIVE/PROSPECT rule
is evaluated anywhere in the loader. -/
theorem C1_profile_segment_code_evaluation :
    build_profiles ["C001"] [] =
      [{ customer_code := "C001", rfm_score := 0, segment := "STANDARD" }] ∧
    "STANDARD" ≠ "PROSPECT" ∧
    (∀ (customers : List String) (orders : List OrderLine),
      ∀ pr ∈ build_profiles customers orders, pr.segment = "STANDARD") := by
  refine ⟨by decide, by decide, ?_⟩
  intro customers orders pr hpr
  simp only [build_profiles, List.mem_map] at hpr
  obtain ⟨cust, _, heq⟩ := hpr
  rw [← heq]

/-! ## Claim C3 -/

/-- C3: evaluation of the code at the failing input.  Two rows share the
phone `+33612345678` and hold no email: `get_phone_groups` finds the one
duplicate group of size 2 (so the claim's formula gives M + uncovered =
1 + 0 = 1 customer), yet `deduplicate_batch` emits both rows unmerged — the
phone groups it computes are never used. -/
theorem C3_phone_dedup_code_evaluation :
    get_phone_groups [phoneRow1, phoneRow2] =
      [("+33612345678", [phoneRow1, phoneRow2])] ∧
    (deduplicate_batch [phoneRow1, phoneRow2]).1 = [phoneRow1, phoneRow2] ∧
    (deduplicate_batch [phoneRow1, phoneRow2]).1.length ≠ 1 := by
  refine ⟨by decide, by decide, by decide⟩

/-! ## Claim C7 -/

/-- C7 counterexample: starting from a PENDING entry, `reject` then `approve`
on the same audit id leaves the entry APPROVED — the code moves a REJECTED
entry to APPROVED, which the claimed lifecycle forbids. -/
theorem C7_lifecycle_counterexample :
    (findAudit (reject_recommendation [pendingAudit] "a1" "admin" "low score"
        0).1 "a1").map (fun e => e.approval_status) =
      some ApprovalStatus.REJECTED ∧
    (findAudit (approve_recommendation (reject_recommendation [pendingAudit]
        "a1" "admin" "low score" 0).1 "a1" "admin" none 1).1 "a1").map
        (fun e => e.approval_status) =
      some ApprovalStatus.APPROVED := by
  refine ⟨by decide, by decide⟩

theorem findAudit_updateFirstAudit (audit_id : String)
    (f : AuditEntry → AuditEntry)
    (hf : ∀ x, (f x).audit_id = x.audit_id) :
    ∀ (s : List AuditEntry) (e : AuditEntry),
      findAudit s audit_id = some e →
      findAudit (updateFirstAudit audit_id f s) audit_id = some (f e) := by
  intro s
  induction s with
  | nil => intro e he; simp [findAudit] at he
  | cons x xs ih =>
    intro e he
    by_cases hx : x.audit_id = audit_id
    · have hex : e = x := by
        simp [findAudit, List.find?_cons, hx] at he
        exact he.symm
      subst hex
      simp [updateFirstAudit, hx, findAudit, List.find?_cons, hf e]
    · simp only [findAudit, List.find?_cons] at he
      rw [decide_eq_false hx] at he
      simp only [updateFirstAudit, if_neg hx, findAudit, List.find?_cons]
      rw [decide_eq_false hx]
      exact ih e he

/-- C7 (amended): when the audit id exists, each of approve/reject/flag
succeeds and sets the status unconditionally — any state moves to APPROVED
under approve, any state to REJECTED under reject, and any state to FLAGGED
under flag with the reason appended to the flag list (last write wins); a
missing id returns false and leaves the state unchanged. -/
theorem C7_lifecycle_amended (s : List AuditEntry)
    (audit_id approved_by flag_reason reject_reason : String)
    (reason : Option String) (now : ℤ) (e : AuditEntry)
    (hfind : findAudit s audit_id = some e) :
    (findAudit (approve_recommendation s audit_id approved_by reason now).1
        audit_id =
      some { e with approval_status := ApprovalStatus.APPROVED
                    approved_by := some approved_by
                    approval_reason := reason
                    approved_at := some now }) ∧
    (approve_recommendation s audit_id approved_by reason now).2 = true ∧
    (findAudit (reject_recommendation s audit_id approved_by reject_reason
        now).1 audit_id =
      some { e with approval_status := ApprovalStatus.REJECTED
                    approved_by := some approved_by
                    approval_reason := some reject_reason
                    approved_at := some now }) ∧
    (reject_recommendation s audit_id approved_by reject_reason now).2 =
      true ∧
    (findAudit (flag_recommendation s audit_id flag_reason).1 audit_id =
      some { e with approval_status := ApprovalStatus.FLAGGED
                    flags := e.flags ++ [flag_reason] }) ∧
    (flag_recommendation s audit_id flag_reason).2 = true ∧
    (findAudit s "no-such-id" = none →
      approve_recommendation s "no-such-id" approved_by reason now =
        (s, false)) := by
  refine ⟨?_, ?_, ?_, ?_, ?_, ?_, ?_⟩
  · unfold approve_recommendation
    rw [hfind]
    exact findAudit_updateFirstAudit audit_id
      (fun x => { x with approval_status := ApprovalStatus.APPROVED
                         approved_by := some approved_by
                         approval_reason := reason
                         approved_at := some now })
      (fun x => rfl) s e hfind
  · unfold approve_recommendation
    rw [hfind]
  · unfold reject_recommendation
    rw [hfind]
    exact findAudit_updateFirstAudit audit_id
      (fun x => { x with approval_status := ApprovalStatus.REJECTED
                         approved_by := some approved_by
                         approval_reason := some reject_reason
                         approved_at := some now })
      (fun x => rfl) s e hfind
  · unfold reject_recommendation
    rw [hfind]
  · unfold flag_recommendation
    rw [hfind]
    exact findAudit_updateFirstAudit audit_id
      (fun x => { x with approval_status := ApprovalStatus.FLAGGED
                         flags := x.flags ++ [flag_reason] })
      (fun x => rfl) s e hfind
  · unfold flag_recommendation
    rw [hfind]
  · intro hnone
    unfold approve_recommendation
    rw [hnone]

/-- C7 witness: the amended statement applied to a state holding a REJECTED
entry — approve moves it to APPROVED. -/
theorem C7_lifecycle_witness :
    findAudit [rejectedAudit] "a2" = some rejectedAudit ∧
    (findAudit (approve_recommendation [rejectedAudit] "a2" "boss" none
        5).1 "a2").map (fun e => e.approval_status) =
      some ApprovalStatus.APPROVED := by
  refine ⟨by decide, ?_⟩
  have h := C7_lifecycle_amended [rejectedAudit] "a2" "boss" "f" "r" none 5
    rejectedAudit (by decide)
  rw [h.1]
  rfl

/-! ## Claim C8 -/

/-- Characterization of `match_nurture` when the order-count gate passes. -/
theorem match_nurture_eq (shuffle : List Product → List Product) (db : Db)
    (cust : String) (h1 : (customerLines db cust).length ≠ 0)
    (h3 : ¬ (customerLines db cust).length > 3) :
    match_nurture shuffle db cust =
      (if ((shuffle (nurtureCandidates db)).take 3).map
            (fun p => p.product_key) = [] then none
       else some (((shuffle (nurtureCandidates db)).take 3).map
            (fun p => p.product_key))) := by
  unfold match_nurture
  rw [if_neg (by omega)]
  simp only [List.isEmpty_iff]

/-- C8 counterexample: `match_nurture` draws a fresh unseeded random order
each execution (`ORDER BY RANDOM()` with no seed and no reference to run or
customer), so two admissible draws — the identity order and its reverse,
both permutations of the candidate rows — give different product lists for
the same customer over the same product table; moreover a customer with 0
lifetime orders (hence at most 3) gets no sample at all
(`if not count or count > 3`). -/
theorem C8_nurture_counterexample :
    match_nurture id nurtureDb "C001" = some ["P1", "P2"] ∧
    match_nurture List.reverse nurtureDb "C001" = some ["P2", "P1"] ∧
    match_nurture id nurtureDb "C001" ≠
      match_nurture List.reverse nurtureDb "C001" ∧
    (∀ l : List Product, (List.reverse l).Perm l) ∧
    (customerLines nurtureDb "C000").length = 0 ∧
    nurtureCandidates nurtureDb ≠ [] ∧
    match_nurture id nurtureDb "C000" = none := by
  refine ⟨by decide, by decide, by decide, fun l => List.reverse_perm l,
    by decide, by decide, by decide⟩

/-- C8 (amended): for a customer with between 1 and 3 lifetime orders and any
random draw (a permutation of the candidate rows), NURTURE returns a
non-empty list of at most 3 product keys, each belonging to a product of the
table with popularity at least 0.3 and a non-null family; it returns `none`
exactly when no product qualifies.  The draw is unseeded, so a shared
(run, customer) pair does not make two executions agree (see the
counterexample). -/
theorem C8_nurture_amended (db : Db) (cust : String)
    (shuffle : List Product → List Product)
    (hperm : ∀ l : List Product, (shuffle l).Perm l)
    (hc1 : 1 ≤ (customerLines db cust).length)
    (hc3 : (customerLines db cust).length ≤ 3) :
    (match_nurture shuffle db cust = none → nurtureCandidates db = []) ∧
    (∀ ps, match_nurture shuffle db cust = some ps →
      ps ≠ [] ∧ ps.length ≤ 3 ∧
      ∀ pk ∈ ps, ∃ product ∈ db.products, product.product_key = pk ∧
        (∃ q, product.popularity_score = some q ∧ (mkRat 3 10) ≤ q) ∧
        product.family.isSome) := by
  rw [match_nurture_eq shuffle db cust (by omega) (by omega)]
  constructor
  · intro hnone
    split_ifs at hnone with hemp
    rw [List.map_eq_nil_iff, List.take_eq_nil_iff] at hemp
    rcases hemp with hemp | hemp
    · exact absurd hemp (by norm_num)
    · have h0 := hperm (nurtureCandidates db)
      rw [hemp] at h0
      exact h0.symm.eq_nil
  · intro ps hps
    split_ifs at hps with hemp
    rw [Option.some_inj] at hps
    subst hps
    refine ⟨hemp, ?_, ?_⟩
    · rw [List.length_map]
      exact List.length_take_le 3 _
    · intro pk hpk
      rw [List.mem_map] at hpk
      obtain ⟨product, hmem, hkey⟩ := hpk
      have hmem2 : product ∈ shuffle (nurtureCandidates db) :=
        (List.take_sublist 3 _).mem hmem
      have hmem3 : product ∈ nurtureCandidates db :=
        (hperm (nurtureCandidates db)).mem_iff.mp hmem2
      unfold nurtureCandidates at hmem3
      rw [List.mem_filter] at hmem3
      obtain ⟨hmemp, hprops⟩ := hmem3
      rw [Bool.and_eq_true] at hprops
      refine ⟨product, hmemp, hkey, ?_, hprops.2⟩
      have hpa := hprops.1
      unfold popAtLeast at hpa
      rcases hq : product.popularity_score with _ | q
      · rw [hq] at hpa; exact absurd hpa (by simp)
      · rw [hq] at hpa
        exact ⟨q, rfl, by simpa using hpa⟩

/-- C8 witness: the amended statement applied to the concrete store (C001
has one order; identity draw). -/
theorem C8_nurture_witness :
    1 ≤ (customerLines nurtureDb "C001").length ∧
    (customerLines nurtureDb "C001").length ≤ 3 ∧
    match_nurture id nurtureDb "C001" = some ["P1", "P2"] ∧
    (∀ pk ∈ ["P1", "P2"], ∃ product ∈ nurtureDb.products,
      product.product_key = pk ∧
      (∃ q, product.popularity_score = some q ∧ (mkRat 3 10) ≤ q) ∧
      product.family.isSome) := by
  refine ⟨by decide, by decide, by decide, ?_⟩
  have h := C8_nurture_amended nurtureDb "C001" id
    (fun l => List.Perm.refl l) (by decide) (by decide)
  exact fun pk hpk => ((h.2 ["P1", "P2"] (by decide)).2.2 pk hpk)

/-! ## Claim C9 -/

theorem hasKey_insertRawRecord_self (table : List RawStagingRecord)
    (b h : String) (d : CsvRow) :
    hasKey (insertRawRecord table b h d) b h = true := by
  unfold insertRawRecord
  split_ifs with hk
  · exact hk
  · simp [hasKey, List.any_append]

theorem hasKey_insertRawRecord_mono (table : List RawStagingRecord)
    (b h b' h' : String) (d : CsvRow) (hk : hasKey table b h = true) :
    hasKey (insertRawRecord table b' h' d) b h = true := by
  unfold insertRawRecord
  split_ifs
  · exact hk
  · simp only [hasKey, List.any_append, Bool.or_eq_true]
    exact Or.inl hk

theorem insertRawRecord_no_op (table : List RawStagingRecord) (b h : String)
    (d : CsvRow) (hk : hasKey table b h = true) :
    insertRawRecord table b h d = table := by
  unfold insertRawRecord
  rw [if_pos hk]

theorem hasKey_load_raw_customers_mono (hash : CsvRow → String)
    (rows : List CsvRow) :
    ∀ (table : List RawStagingRecord) (batch_id b h : String),
      hasKey table b h = true →
      hasKey (load_raw_customers hash table rows batch_id) b h = true := by
  induction rows with
  | nil => intro table batch_id b h hk; exact hk
  | cons r rest ih =>
    intro table batch_id b h hk
    exact ih _ batch_id b h (hasKey_insertRawRecord_mono _ _ _ _ _ _ hk)

theorem hasKey_load_raw_customers (hash : CsvRow → String)
    (rows : List CsvRow) :
    ∀ (table : List RawStagingRecord) (batch_id : String) (r : CsvRow),
      r ∈ rows →
      hasKey (load_raw_customers hash table rows batch_id) batch_id
        (hash r) = true := by
  induction rows with
  | nil => intro table batch_id r hr; exact absurd hr (List.not_mem_nil r)
  | cons r0 rest ih =>
    intro table batch_id r hr
    rcases List.mem_cons.mp hr with hr | hr
    · subst hr
      exact hasKey_load_raw_customers_mono hash rest _ batch_id _ _
        (hasKey_insertRawRecord_self table batch_id (hash r) r)
    · exact ih _ batch_id r hr

theorem load_raw_customers_no_op (hash : CsvRow → String)
    (rows : List CsvRow) :
    ∀ (table : List RawStagingRecord) (batch_id : String),
      (∀ r ∈ rows, hasKey table batch_id (hash r) = true) →
      load_raw_customers hash table rows batch_id = table := by
  induction rows with
  | nil => intro table batch_id _; rfl
  | cons r0 rest ih =>
    intro table batch_id hall
    show load_raw_customers hash
      (insertRawRecord table batch_id (hash r0) r0) rest batch_id = table
    rw [insertRawRecord_no_op table batch_id (hash r0) r0
      (hall r0 (List.mem_cons_self r0 rest))]
    exact ih table batch_id (fun r hr => hall r (List.mem_cons_of_mem r0 hr))

/-- C9: raw-staging load is idempotent.  Each row is written under the
uniqueness constraint on `(batch_id, row_hash)` with the hash a function of
the row content alone (`calculate_row_hash`, SHA-256 of the sorted-JSON
dump — the theorem holds for every such deterministic hash function), so
re-running the load of the same rows with the same `batch_id` leaves the
staging table exactly as the first run left it. -/
theorem C9_ingestion_idempotent (hash : CsvRow → String)
    (table : List RawStagingRecord) (rows : List CsvRow)
    (batch_id : String) :
    load_raw_customers hash
        (load_raw_customers hash table rows batch_id) rows batch_id =
      load_raw_customers hash table rows batch_id :=
  load_raw_customers_no_op hash rows _ batch_id
    (fun r hr => hasKey_load_raw_customers hash rows table batch_id r hr)

/-! ## Claim C6 -/

/-- C6: the silence-window check is true iff the customer has a latest
contact date and today minus it is strictly below `days`; a latest contact
date exists iff the customer has at least one contact event; and whenever
the check (at its default 30 days) is true and enabled, the engine returns
success = false with an empty recommendation list — nothing is persisted
(`_save_recommendations` writes exactly the returned items). -/
theorem C6_silence_window (db : Db) (today : ℤ) (cust : String) (days : ℤ) :
    (get_silence_window db today cust days = true ↔
      ∃ d, maxContactDate db cust = some d ∧ today - d < days) ∧
    ((maxContactDate db cust).isSome = true ↔
      ∃ c ∈ db.contacts, c.customer_code = cust) ∧
    (∀ (shuffle : List Product → List Product) (K : ℕ),
      get_silence_window db today cust 30 = true →
      generate_recommendations shuffle db today cust K true = ([], false)) := by
  refine ⟨?_, ?_, ?_⟩
  · unfold get_silence_window
    rcases hm : maxContactDate db cust with _ | d
    · simp
    · simp
  · rw [Option.isSome_iff_ne_none]
    unfold maxContactDate
    rw [Ne, List.max?_eq_none_iff, List.map_eq_nil_iff,
      List.filter_eq_nil_iff]
    push_neg
    simp
  · intro shuffle K h
    unfold generate_recommendations
    rw [if_pos ⟨rfl, h⟩]

/-- C6 witness: C001's last contact 29 days ago (N − 1, today = 0) puts the
check at true and the engine returns `([], false)`; a last contact exactly
30 days ago passes. -/
theorem C6_silence_window_witness :
    get_silence_window silenceDb 0 "C001" 30 = true ∧
    generate_recommendations id silenceDb 0 "C001" 3 true = ([], false) ∧
    get_silence_window silenceDbAtN 0 "C001" 30 = false := by
  refine ⟨by decide, ?_, by decide⟩
  exact (C6_silence_window silenceDb 0 "C001" 30).2.2 id 3 (by decide)

/-! ## Claim C5 -/

theorem assignRanks_map_rank (l : List RecoScore) :
    ∀ n : ℕ, (assignRanks n l).map (fun it => it.rank) =
      List.range' n l.length := by
  induction l with
  | nil => intro n; rfl
  | cons s rest ih =>
    intro n
    simp only [assignRanks, List.map_cons, List.length_cons, List.range'_succ]
    rw [ih (n + 1)]

theorem assignRanks_length (l : List RecoScore) :
    ∀ n : ℕ, (assignRanks n l).length = l.length := by
  induction l with
  | nil => intro n; rfl
  | cons s rest ih =>
    intro n
    simp only [assignRanks, List.length_cons]
    rw [ih (n + 1)]

theorem assignRanks_map_score (l : List RecoScore) :
    ∀ n : ℕ, (assignRanks n l).map (fun it => it.score) = l := by
  induction l with
  | nil => intro n; rfl
  | cons s rest ih =>
    intro n
    simp only [assignRanks, List.map_cons]
    rw [ih (n + 1)]

theorem mem_insertDesc (s x : RecoScore) :
    ∀ l : List RecoScore, x ∈ insertDesc s l ↔ x = s ∨ x ∈ l := by
  intro l
  induction l with
  | nil => simp [insertDesc]
  | cons t ts ih =>
    unfold insertDesc
    split_ifs with hlt
    · simp [List.mem_cons]
    · simp only [List.mem_cons, ih]
      tauto

theorem insertDesc_pairwise (s : RecoScore) :
    ∀ l : List RecoScore,
      l.Pairwise (fun a b => b.final_score ≤ a.final_score) →
      (insertDesc s l).Pairwise
        (fun a b => b.final_score ≤ a.final_score) := by
  intro l
  induction l with
  | nil => intro _; simp [insertDesc]
  | cons t ts ih =>
    intro h
    rw [List.pairwise_cons] at h
    unfold insertDesc
    split_ifs with hlt
    · refine List.Pairwise.cons ?_ (List.Pairwise.cons h.1 h.2)
      intro x hx
      rcases List.mem_cons.mp hx with hx | hx
      · subst hx; exact le_of_lt hlt
      · exact le_trans (h.1 x hx) (le_of_lt hlt)
    · refine List.Pairwise.cons ?_ (ih h.2)
      intro x hx
      rcases (mem_insertDesc s x ts).mp hx with hx | hx
      · subst hx; exact not_lt.mp hlt
      · exact h.1 x hx

theorem sortByFinalDesc_pairwise :
    ∀ l : List RecoScore,
      (sortByFinalDesc l).Pairwise
        (fun a b => b.final_score ≤ a.final_score) := by
  intro l
  induction l with
  | nil => exact List.Pairwise.nil
  | cons s rest ih => exact insertDesc_pairwise s _ ih

theorem rank_then_diversify_contract (fam : String → Option String)
    (scores : List RecoScore) (K : ℕ) :
    ((assignRanks 1 (diversify_recommendations fam
        (rank_recommendations scores K) K)).map (fun it => it.rank) =
      List.range' 1 (assignRanks 1 (diversify_recommendations fam
        (rank_recommendations scores K) K)).length) ∧
    (assignRanks 1 (diversify_recommendations fam
      (rank_recommendations scores K) K)).length ≤ K ∧
    (assignRanks 1 (diversify_recommendations fam
      (rank_recommendations scores K) K)).Pairwise
      (fun a b => b.score.final_score ≤ a.score.final_score) := by
  rcases K with _ | K'
  · have h0 : rank_recommendations scores 0 = [] := by
      unfold rank_recommendations
      exact List.take_zero _
    rw [h0]
    exact ⟨rfl, by simp [diversify_recommendations, assignRanks], by
      simp [diversify_recommendations, assignRanks]⟩
  · have hd : diversify_recommendations fam
        (rank_recommendations scores (K' + 1)) (K' + 1) =
        (rank_recommendations scores (K' + 1)).take (K' + 1) :=
      diversify_eq_take fam _ _ (Nat.succ_le_succ (Nat.zero_le K'))
    have hr : (rank_recommendations scores (K' + 1)).take (K' + 1) =
        (sortByFinalDesc scores).take (K' + 1) := by
      unfold rank_recommendations
      rw [List.take_take, min_self]
    rw [hd, hr]
    refine ⟨?_, ?_, ?_⟩
    · rw [assignRanks_map_rank, assignRanks_length]
    · rw [assignRanks_length]
      exact List.length_take_le (K' + 1) _
    · have hp : ((sortByFinalDesc scores).take (K' + 1)).Pairwise
          (fun a b => b.final_score ≤ a.final_score) :=
        List.Pairwise.sublist (List.take_sublist _ _)
          (sortByFinalDesc_pairwise scores)
      rw [← assignRanks_map_score ((sortByFinalDesc scores).take (K' + 1)) 1]
        at hp
      exact List.pairwise_map.mp hp

/-- C5: for every run of the engine — in particular every successful one —
the persisted items carry ranks 1, 2, ..., k in list order (a prefix of the
positive naturals) with k ≤ K, and their final scores are weakly decreasing
over ranks (failed runs return the empty item list, which satisfies the
contract vacuously). -/
theorem C5_rank_contract (shuffle : List Product → List Product) (db : Db)
    (today : ℤ) (cust : String) (K : ℕ) (enable_silence_check : Bool) :
    ((generate_recommendations shuffle db today cust K
        enable_silence_check).1.map (fun it => it.rank) =
      List.range' 1 (generate_recommendations shuffle db today cust K
        enable_silence_check).1.length) ∧
    (generate_recommendations shuffle db today cust K
      enable_silence_check).1.length ≤ K ∧
    (generate_recommendations shuffle db today cust K
      enable_silence_check).1.Pairwise
      (fun a b => b.score.final_score ≤ a.score.final_score) := by
  unfold generate_recommendations
  dsimp only
  split_ifs with h1 h2 h3
  · exact ⟨rfl, Nat.zero_le K, List.Pairwise.nil⟩
  · exact ⟨rfl, Nat.zero_le K, List.Pairwise.nil⟩
  · exact ⟨rfl, Nat.zero_le K, List.Pairwise.nil⟩
  · exact rank_then_diversify_contract (familyOf db) _ K

/-! ## Claim C10 -/

theorem validateBatchGo_cons (seen : List String) (valid : List CustRow)
    (errs : List IngestionErrorRec) (n : ℕ) (r : CustRow)
    (rest : List CustRow) :
    validateBatchGo seen valid errs n (r :: rest) =
      (if dupKeyOf r ∈ seen then
        validateBatchGo seen valid
          (errs ++ [{ row_number := n, error_code := "DUPLICATE_CUSTOMER" }])
          (n + 1) rest
      else
        match validateCustomerRow r with
        | some v => validateBatchGo (seen ++ [dupKeyOf r]) (valid ++ [v])
            errs (n + 1) rest
        | none => validateBatchGo (seen ++ [dupKeyOf r]) valid
            (errs ++ [{ row_number := n, error_code := "VALIDATION_ERROR" }])
            (n + 1) rest) := rfl

theorem validateBatchGo_rowcount (l : List CustRow) :
    ∀ (seen : List String) (valid : List CustRow)
      (errs : List IngestionErrorRec) (n : ℕ),
      (validateBatchGo seen valid errs n l).2.2.2 = n + l.length := by
  induction l with
  | nil => intro seen valid errs n; simp [validateBatchGo]
  | cons r rest ih =>
    intro seen valid errs n
    rw [validateBatchGo_cons]
    split_ifs with hc
    · rw [ih]; simp; omega
    · rcases hv : validateCustomerRow r with _ | v
      · rw [ih]; simp; omega
      · rw [ih]; simp; omega

theorem validateBatchGo_seen_sub (l : List CustRow) :
    ∀ (seen : List String) (valid : List CustRow)
      (errs : List IngestionErrorRec) (n : ℕ) (x : String),
      x ∈ (validateBatchGo seen valid errs n l).1 →
      x ∈ seen ∨ x ∈ l.map dupKeyOf := by
  induction l with
  | nil => intro seen valid errs n x hx; exact Or.inl hx
  | cons r rest ih =>
    intro seen valid errs n x hx
    rw [validateBatchGo_cons] at hx
    split_ifs at hx with hc
    · rcases ih _ _ _ _ x hx with h | h
      · exact Or.inl h
      · exact Or.inr (by simp [h])
    · rcases hv : validateCustomerRow r with _ | v <;> rw [hv] at hx
      all_goals
        rcases ih _ _ _ _ x hx with h | h
        · rcases List.mem_append.mp h with h | h
          · exact Or.inl h
          · exact Or.inr (by simp [List.mem_singleton.mp h])
        · exact Or.inr (by simp [h])

theorem validateBatchGo_errs_mono (l : List CustRow) :
    ∀ (seen : List String) (valid : List CustRow)
      (errs : List IngestionErrorRec) (n : ℕ) (e : IngestionErrorRec),
      e ∈ errs → e ∈ (validateBatchGo seen valid errs n l).2.2.1 := by
  induction l with
  | nil => intro seen valid errs n e he; exact he
  | cons r rest ih =>
    intro seen valid errs n e he
    rw [validateBatchGo_cons]
    split_ifs with hc
    · exact ih _ _ _ _ e (List.mem_append_left _ he)
    · rcases hv : validateCustomerRow r with _ | v
      · exact ih _ _ _ _ e (List.mem_append_left _ he)
      · exact ih _ _ _ _ e he

theorem validateBatchGo_dup_reported (l : List CustRow) :
    ∀ (seen : List String) (valid : List CustRow)
      (errs : List IngestionErrorRec) (n : ℕ) (X : String), X ∈ seen →
      ∀ (m : ℕ) (hm : m < l.length), dupKeyOf (l.get ⟨m, hm⟩) = X →
      ∃ e ∈ (validateBatchGo seen valid errs n l).2.2.1,
        e.error_code = "DUPLICATE_CUSTOMER" ∧ e.row_number = n + m := by
  induction l with
  | nil => intro seen valid errs n X _ m hm; exact absurd hm (by simp)
  | cons r rest ih =>
    intro seen valid errs n X hX m hm hkey
    rw [validateBatchGo_cons]
    rcases m with _ | m'
    · have hr : dupKeyOf r = X := hkey
      rw [if_pos (hr ▸ hX)]
      refine ⟨{ row_number := n, error_code := "DUPLICATE_CUSTOMER" },
        validateBatchGo_errs_mono rest _ _ _ _ _ ?_, rfl, by simp⟩
      exact List.mem_append_right _ (List.mem_singleton_self _)
    · have hm' : m' < rest.length := by simpa using hm
      have hkey' : dupKeyOf (rest.get ⟨m', hm'⟩) = X := hkey
      split_ifs with hc
      · obtain ⟨e, hmem, hcode, hrow⟩ := ih _ _ _ _ X hX m' hm' hkey'
        exact ⟨e, hmem, hcode, by omega⟩
      · have hX' : X ∈ seen ++ [dupKeyOf r] := List.mem_append_left _ hX
        rcases hv : validateCustomerRow r with _ | v
        · obtain ⟨e, hmem, hcode, hrow⟩ := ih _ _ _ _ X hX' m' hm' hkey'
          exact ⟨e, hmem, hcode, by omega⟩
        · obtain ⟨e, hmem, hcode, hrow⟩ := ih _ _ _ _ X hX' m' hm' hkey'
          exact ⟨e, hmem, hcode, by omega⟩

theorem validateCustomerRow_code (r : CustRow) (v : CustRow)
    (h : validateCustomerRow r = some v) :
    v.customer_code = some (dupKeyOf r) := by
  rcases hcc : r.customer_code with _ | c
  · rw [validateCustomerRow, hcc] at h
    simp at h
  · simp only [validateCustomerRow, hcc] at h
    by_cases hcs : pyStrip c = ""
    · rw [if_pos hcs] at h
      simp at h
    · rw [if_neg hcs] at h
      rcases hem : validateEmailField r.email with _ | em <;> rw [hem] at h
      · simp at h
      · rcases hpc : validatePostalField r.postal_code with _ | pc <;>
          rw [hpc] at h
        · simp at h
        · rw [Option.some_inj] at h
          rw [← h]
          simp [dupKeyOf, hcc]

theorem validateBatchGo_valid_no_key (l : List CustRow) :
    ∀ (seen : List String) (valid : List CustRow)
      (errs : List IngestionErrorRec) (n : ℕ) (X : String), X ∈ seen →
      (∀ v ∈ valid, v.customer_code ≠ some X) →
      ∀ v ∈ (validateBatchGo seen valid errs n l).2.1,
        v.customer_code ≠ some X := by
  induction l with
  | nil => intro seen valid errs n X _ hval v hv; exact hval v hv
  | cons r rest ih =>
    intro seen valid errs n X hX hval v hv
    rw [validateBatchGo_cons] at hv
    split_ifs at hv with hc
    · exact ih _ _ _ _ X hX hval v hv
    · have hkey : dupKeyOf r ≠ X := fun he => hc (he ▸ hX)
      have hX' : X ∈ seen ++ [dupKeyOf r] := List.mem_append_left _ hX
      rcases hv0 : validateCustomerRow r with _ | v0 <;> rw [hv0] at hv
      · exact ih _ _ _ _ X hX' hval v hv
      · refine ih _ _ _ _ X hX' ?_ v hv
        intro w hw
        rcases List.mem_append.mp hw with hw | hw
        · exact hval w hw
        · rw [List.mem_singleton.mp hw,
            validateCustomerRow_code r v0 hv0]
          simp [hkey]

theorem validateBatchGo_valid_no_key_of_rows (l : List CustRow) :
    ∀ (seen : List String) (valid : List CustRow)
      (errs : List IngestionErrorRec) (n : ℕ) (X : String),
      (∀ r ∈ l, dupKeyOf r ≠ X) →
      (∀ v ∈ valid, v.customer_code ≠ some X) →
      ∀ v ∈ (validateBatchGo seen valid errs n l).2.1,
        v.customer_code ≠ some X := by
  induction l with
  | nil => intro seen valid errs n X _ hval v hv; exact hval v hv
  | cons r rest ih =>
    intro seen valid errs n X hrows hval v hv
    rw [validateBatchGo_cons] at hv
    have hrest : ∀ r' ∈ rest, dupKeyOf r' ≠ X :=
      fun r' hr' => hrows r' (List.mem_cons_of_mem r hr')
    split_ifs at hv with hc
    · exact ih _ _ _ _ X hrest hval v hv
    · rcases hv0 : validateCustomerRow r with _ | v0 <;> rw [hv0] at hv
      · exact ih _ _ _ _ X hrest hval v hv
      · refine ih _ _ _ _ X hrest ?_ v hv
        intro w hw
        rcases List.mem_append.mp hw with hw | hw
        · exact hval w hw
        · rw [List.mem_singleton.mp hw,
            validateCustomerRow_code r v0 hv0]
          simp [hrows r (List.mem_cons_self r rest)]

theorem validateBatchGo_append (l1 : List CustRow) :
    ∀ (l2 : List CustRow) (seen : List String) (valid : List CustRow)
      (errs : List IngestionErrorRec) (n : ℕ),
      validateBatchGo seen valid errs n (l1 ++ l2) =
        validateBatchGo (validateBatchGo seen valid errs n l1).1
          (validateBatchGo seen valid errs n l1).2.1
          (validateBatchGo seen valid errs n l1).2.2.1
          (validateBatchGo seen valid errs n l1).2.2.2 l2 := by
  induction l1 with
  | nil => intro l2 seen valid errs n; rfl
  | cons r l1 ih =>
    intro l2 seen valid errs n
    rw [List.cons_append, validateBatchGo_cons, validateBatchGo_cons]
    split_ifs with hc
    · exact ih l2 _ _ _ _
    · rcases hv : validateCustomerRow r with _ | v
      · exact ih l2 _ _ _ _
      · exact ih l2 _ _ _ _

/-- C10: the duplicate-detection set registers a customer code before the
row is schema-validated, so when the first row carrying code X fails schema
validation and a later row with code X is schema-valid, the later row is
still reported as DUPLICATE_CUSTOMER (at its CSV row number, header = row
1), and the batch's valid output holds no row with code X. -/
theorem C10_duplicate_before_validation (pre : List CustRow) (ri : CustRow)
    (rest : List CustRow) (X : String)
    (hXi : dupKeyOf ri = X)
    (hfirst : ∀ r ∈ pre, dupKeyOf r ≠ X)
    (hbad : validateCustomerRow ri = none)
    (m : ℕ) (hm : m < rest.length)
    (hXj : dupKeyOf (rest.get ⟨m, hm⟩) = X)
    (_hgood : (validateCustomerRow (rest.get ⟨m, hm⟩)).isSome = true) :
    (∃ e ∈ (validate_customer_batch (pre ++ ri :: rest)).2,
      e.error_code = "DUPLICATE_CUSTOMER" ∧
      e.row_number = 3 + pre.length + m) ∧
    (∀ v ∈ (validate_customer_batch (pre ++ ri :: rest)).1,
      v.customer_code ≠ some X) := by
  have hXnot : X ∉ (validateBatchGo [] [] [] 2 pre).1 := by
    intro hx
    rcases validateBatchGo_seen_sub pre [] [] [] 2 X hx with h | h
    · exact absurd h (List.not_mem_nil X)
    · obtain ⟨r, hr, hkey⟩ := List.mem_map.mp h
      exact hfirst r hr hkey
  have hn : (validateBatchGo [] [] [] 2 pre).2.2.2 = 2 + pre.length :=
    validateBatchGo_rowcount pre [] [] [] 2
  have hsplit := validateBatchGo_append pre (ri :: rest) [] [] [] 2
  rw [validateBatchGo_cons, hXi, if_neg hXnot, hbad] at hsplit
  have hXin : X ∈ (validateBatchGo [] [] [] 2 pre).1 ++ [X] :=
    List.mem_append_right _ (List.mem_singleton_self X)
  constructor
  · obtain ⟨e, hmem, hcode, hrow⟩ :=
      validateBatchGo_dup_reported rest _ _ _ _ X hXin m hm hXj
    refine ⟨e, ?_, hcode, ?_⟩
    · show e ∈ (validateBatchGo [] [] [] 2 (pre ++ ri :: rest)).2.2.1
      rw [hsplit]
      exact hmem
    · rw [hrow, hn]
      omega
  · intro v hv
    have hvalid_pre : ∀ w ∈ (validateBatchGo [] [] [] 2 pre).2.1,
        w.customer_code ≠ some X :=
      validateBatchGo_valid_no_key_of_rows pre [] [] [] 2 X hfirst
        (fun w hw => absurd hw (List.not_mem_nil w))
    show v.customer_code ≠ some X
    have hv2 : v ∈ (validateBatchGo [] [] [] 2 (pre ++ ri :: rest)).2.1 := hv
    rw [hsplit] at hv2
    exact validateBatchGo_valid_no_key rest _ _ _ _ X hXin hvalid_pre v hv2

/-- C10 witness: the first C1 row has an invalid email (schema failure), the
second C1 row is schema-valid; the batch reports VALIDATION_ERROR at row 2
and DUPLICATE_CUSTOMER at row 3 and outputs no valid row. -/
theorem C10_duplicate_before_validation_witness :
    dupKeyOf c10badRow = "C1" ∧
    validateCustomerRow c10badRow = none ∧
    (validateCustomerRow c10goodRow).isSome = true ∧
    (∃ e ∈ (validate_customer_batch [c10badRow, c10goodRow]).2,
      e.error_code = "DUPLICATE_CUSTOMER" ∧ e.row_number = 3) ∧
    (∀ v ∈ (validate_customer_batch [c10badRow, c10goodRow]).1,
      v.customer_code ≠ some "C1") := by
  have h := C10_duplicate_before_validation [] c10badRow [c10goodRow] "C1"
    (by decide) (fun r hr => absurd hr (List.not_mem_nil r)) (by decide)
    0 (by decide) (by decide) (by decide)
  refine ⟨by decide, by decide, by decide, ?_, h.2⟩
  obtain ⟨e, hmem, hcode, hrow⟩ := h.1
  exact ⟨e, hmem, hcode, by simpa using hrow⟩

end CrmReco
